import Mathlib

/-!
Verification development for the waybar-weather geolocation core: the
provider streaming contract (file provider and two IP-geolocation
providers), the fusion hub selection rule, and the sleep/resume monitor.

Machine floating-point values (Go float64) are embedded as rationals (ℚ):
none of the verified properties depends on rounding, only on comparison,
equality and field selection.  Timestamps are embedded as integers
(Unix seconds / milliseconds).
-/

namespace Geobus

/-- One location observation, embedding `geobus.Result` (struct declared in
the geobus package; its fields are fixed by §3 of the documentation and by
every `createResult` call site in src). -/
structure Result where
  key : String
  lat : ℚ
  lon : ℚ
  alt : ℚ
  accuracyMeters : ℚ
  confidence : ℚ
  source : String
  atTime : ℤ
  ttl : ℤ
  deriving Repr, DecidableEq

end Geobus

namespace GeolocationFile

/-- Digit value of a character, `none` for a non-digit. -/
def digitVal? (c : Char) : Option ℕ :=
  if c.isDigit then some (c.toNat - 48) else none

/-- Splits a character list into its leading run of decimal digits and the
remainder. -/
def takeDigits : List Char → List ℕ × List Char
  | [] => ([], [])
  | c :: cs =>
    match digitVal? c with
    | some d =>
      let p := takeDigits cs
      (d :: p.1, p.2)
    | none => ([], c :: cs)

/-- Reads a digit list as a natural number, most significant digit first. -/
def digitsToNat (ds : List ℕ) : ℕ := ds.foldl (fun a d => a * 10 + d) 0

/-- Parses the exponent suffix after the mantissa: either nothing remains
(exponent 0), or an `e`/`E` followed by an optional sign and a nonempty
digit run consuming the rest of the string.  Returns the sign (true =
negative) and magnitude of the exponent, or `none` on a malformed tail. -/
def parseExponent : List Char → Option (Bool × ℕ)
  | [] => some (false, 0)
  | e :: rest =>
    if e = 'e' ∨ e = 'E' then
      let p : Bool × List Char :=
        match rest with
        | '+' :: r => (false, r)
        | '-' :: r => (true, r)
        | _ => (false, rest)
      let q := takeDigits p.2
      if q.1 = [] ∨ q.2 ≠ [] then none
      else some (p.1, digitsToNat q.1)
    else none

/-- Embeds the decimal grammar of `strconv.ParseFloat(line, 64)` as used by
`GeolocationFileProvider.readFile`: optional sign, decimal digits with an
optional fractional part (at least one digit on at least one side of the
dot), and an optional `e`/`E` exponent.  Returns `none` exactly when Go
returns a parse error for a plain decimal input. -/
def parseFloat? (s : String) : Option ℚ :=
  let cs := s.data
  let sp : Bool × List Char :=
    match cs with
    | '+' :: rest => (false, rest)
    | '-' :: rest => (true, rest)
    | _ => (false, cs)
  let ip := takeDigits sp.2
  let fp : List ℕ × List Char :=
    match ip.2 with
    | '.' :: rest => takeDigits rest
    | _ => ([], ip.2)
  if ip.1 = [] ∧ fp.1 = [] then none
  else
    match parseExponent fp.2 with
    | none => none
    | some ex =>
      let mantNum : ℕ := digitsToNat ip.1 * 10 ^ fp.1.length + digitsToNat fp.1
      let n : ℕ := if ex.1 then mantNum else mantNum * 10 ^ ex.2
      let d : ℕ := (10 ^ fp.1.length) * (if ex.1 then 10 ^ ex.2 else 1)
      some (mkRat (if sp.1 then -(n : ℤ) else (n : ℤ)) d)

/-- Closes one scanned line: `bufio.ScanLines` drops a carriage return
immediately before the newline.  `acc` holds the line's characters in
reverse order. -/
def mkLine (acc : List Char) : String :=
  match acc with
  | '\r' :: rest => String.mk rest.reverse
  | _ => String.mk acc.reverse

/-- Embeds the line scanning of `bufio.Scanner` over the file contents:
splits at every newline.  (The scanner emits no empty token after a final
trailing newline; this splitter does, which is behaviorally identical here
because `readFile` skips empty lines.) -/
def splitLinesAux : List Char → List Char → List String
  | [], acc => [mkLine acc]
  | c :: cs, acc =>
    if c = '\n' then mkLine acc :: splitLinesAux cs []
    else splitLinesAux cs (c :: acc)

/-- Splits file contents into lines. -/
def splitLines (s : String) : List String := splitLinesAux s.data []

/-- Embeds the scanner loop of `GeolocationFileProvider.readFile`
(geolocation_file.go:116-128): walk the lines in order, skip empty lines,
parse every other line, failing on the first unparsable one. -/
def parseValues : List String → Except String (List ℚ)
  | [] => .ok []
  | line :: rest =>
    if line = "" then parseValues rest
    else
      match parseFloat? line with
      | none => .error "invalid number in geolocation file"
      | some v =>
        match parseValues rest with
        | .error e => .error e
        | .ok vs => .ok (v :: vs)

/-- Embeds `GeolocationFileProvider.readFile`
(geolocation_file.go:105-133): scan the file's lines, collect the parsed
values, error when fewer than four were found, otherwise return the first
four as (lat, lon, alt, accuracy). -/
def readFile (contents : String) : Except String (ℚ × ℚ × ℚ × ℚ) :=
  match parseValues (splitLines contents) with
  | .error e => .error e
  | .ok vs =>
    match vs with
    | v0 :: v1 :: v2 :: v3 :: _ => .ok (v0, v1, v2, v3)
    | _ => .error "geolocation file missing required lines (need 4)"

end GeolocationFile

namespace GeolocationFile

theorem parseFloat?_empty : parseFloat? "" = none := rfl

/-- If the scanner loop succeeds, every nonempty line parsed. -/
theorem parseValues_ok_parses {ls : List String} {vs : List ℚ}
    (h : parseValues ls = .ok vs) :
    ∀ l ∈ ls, l ≠ "" → (parseFloat? l).isSome := by
  induction ls generalizing vs with
  | nil => intro l hl; simp at hl
  | cons line rest ih =>
    intro l hl hne
    rw [List.mem_cons] at hl
    by_cases hline : line = ""
    · rcases hl with hl | hl
      · exact absurd (hl.trans hline) hne
      · rw [parseValues, if_pos hline] at h
        exact ih h l hl hne
    · rw [parseValues, if_neg hline] at h
      cases hp : parseFloat? line with
      | none => rw [hp] at h; exact absurd h (by simp)
      | some v =>
        rw [hp] at h
        rcases hl with hl | hl
        · subst hl; rw [hp]; rfl
        · cases hr : parseValues rest with
          | error e => rw [hr] at h; exact absurd h (by simp)
          | ok ws => exact ih hr l hl hne

/-- If the scanner loop succeeds, it returns exactly the parses of the
lines in order (empty lines contribute nothing since they never parse). -/
theorem parseValues_ok_eq {ls : List String} {vs : List ℚ}
    (h : parseValues ls = .ok vs) :
    vs = ls.filterMap parseFloat? := by
  induction ls generalizing vs with
  | nil => rw [parseValues] at h; cases h; rfl
  | cons line rest ih =>
    by_cases hline : line = ""
    · rw [parseValues, if_pos hline] at h
      subst hline
      rw [List.filterMap_cons, parseFloat?_empty]
      exact ih h
    · rw [parseValues, if_neg hline] at h
      cases hp : parseFloat? line with
      | none => rw [hp] at h; exact absurd h (by simp)
      | some v =>
        rw [hp] at h
        cases hr : parseValues rest with
        | error e => rw [hr] at h; exact absurd h (by simp)
        | ok ws =>
          rw [hr] at h
          cases h
          rw [List.filterMap_cons, hp]
          exact congrArg (v :: ·) (ih hr)

/-- If every nonempty line parses, the scanner loop succeeds with exactly
those parses. -/
theorem parseValues_ok_of_all {ls : List String}
    (h : ∀ l ∈ ls, l ≠ "" → (parseFloat? l).isSome) :
    parseValues ls = .ok (ls.filterMap parseFloat?) := by
  induction ls with
  | nil => rfl
  | cons line rest ih =>
    by_cases hline : line = ""
    · rw [parseValues, if_pos hline]
      subst hline
      rw [List.filterMap_cons, parseFloat?_empty]
      exact ih fun l hl => h l (List.mem_cons_of_mem _ hl)
    · rw [parseValues, if_neg hline]
      cases hp : parseFloat? line with
      | none =>
        have := h line (List.mem_cons_self _ _) hline
        rw [hp] at this; exact absurd this (by simp)
      | some v =>
        rw [ih fun l hl => h l (List.mem_cons_of_mem _ hl),
          List.filterMap_cons, hp]

/-- A nonempty line that fails to parse makes the scanner loop fail. -/
theorem parseValues_error_of_bad {ls : List String} {l : String}
    (hmem : l ∈ ls) (hne : l ≠ "") (hbad : parseFloat? l = none) :
    ∃ e, parseValues ls = .error e := by
  induction ls with
  | nil => simp at hmem
  | cons line rest ih =>
    rw [List.mem_cons] at hmem
    by_cases hline : line = ""
    · rw [parseValues, if_pos hline]
      rcases hmem with h | h
      · exact absurd (h.trans hline) hne
      · exact ih h
    · rw [parseValues, if_neg hline]
      cases hp : parseFloat? line with
      | none => exact ⟨_, rfl⟩
      | some v =>
        rcases hmem with h | h
        · subst h; rw [hp] at hbad; cases hbad
        · rcases ih h with ⟨e, he⟩
          rw [he]
          exact ⟨e, rfl⟩

/-- The number of successful parses is at most the number of nonempty
lines. -/
theorem filterMap_le_nonempty (ls : List String) :
    (ls.filterMap parseFloat?).length ≤
      (ls.filter (fun l => l ≠ "")).length := by
  induction ls with
  | nil => simp
  | cons line rest ih =>
    by_cases hline : line = ""
    · subst hline
      rw [List.filterMap_cons, parseFloat?_empty]
      simpa using ih
    · have hfil : (line :: rest).filter (fun l => l ≠ "") =
          line :: rest.filter (fun l => l ≠ "") := by
        simp [List.filter_cons, hline]
      rw [List.filterMap_cons, hfil, List.length_cons]
      cases hp : parseFloat? line with
      | none => exact ih.trans (Nat.le_succ _)
      | some v => exact Nat.succ_le_succ ih

/-- A nonempty line that fails to parse makes `readFile` fail. -/
theorem readFile_error_of_bad {contents l : String}
    (hmem : l ∈ splitLines contents) (hne : l ≠ "")
    (hbad : parseFloat? l = none) :
    ∃ e, readFile contents = .error e := by
  rcases parseValues_error_of_bad hmem hne hbad with ⟨e, he⟩
  exact ⟨e, by rw [readFile, he]⟩

/-- Fewer than four nonempty lines make readFile fail. -/
theorem readFile_error_of_short {contents : String}
    (h : ((splitLines contents).filter (fun l => l ≠ "")).length < 4) :
    ∃ e, readFile contents = .error e := by
  rw [readFile]
  cases hv : parseValues (splitLines contents) with
  | error e => exact ⟨e, rfl⟩
  | ok vs =>
    have h1 : vs.length ≤ ((splitLines contents).filter (fun l => l ≠ "")).length := by
      rw [parseValues_ok_eq hv]
      exact filterMap_le_nonempty _
    have hlen : vs.length < 4 := lt_of_le_of_lt h1 h
    match vs, hlen with
    | [], _ => exact ⟨_, rfl⟩
    | [a], _ => exact ⟨_, rfl⟩
    | [a, b], _ => exact ⟨_, rfl⟩
    | [a, b, c], _ => exact ⟨_, rfl⟩

end GeolocationFile

namespace GeolocationFile

/-- C3: readFile on the four lines "52.5", "13.4", "34", "10" yields
lat 52.5, lon 13.4, alt 34, accuracy 10 with no error; any input with
fewer than four non-blank lines, or containing a non-blank line that does
not parse as a decimal float, returns an error (the function is total, so
a malformed file can never crash the provider, only make it retry). -/
theorem readFile_parse_contract :
    readFile "52.5\n13.4\n34\n10\n" = .ok (52.5, 13.4, 34, 10) ∧
    (∀ contents : String,
      ((splitLines contents).filter (fun l => l ≠ "")).length < 4 →
      ∃ e, readFile contents = .error e) ∧
    (∀ contents l : String, l ∈ splitLines contents → l ≠ "" →
      parseFloat? l = none → ∃ e, readFile contents = .error e) := by
  refine ⟨?_, ?_, ?_⟩
  · have h : readFile "52.5\n13.4\n34\n10\n" =
        .ok (mkRat 525 10, mkRat 134 10, 34, 10) := rfl
    rw [h]
    norm_num [Rat.mkRat_eq_div]
  · exact fun contents h => readFile_error_of_short h
  · exact fun contents l hmem hne hbad => readFile_error_of_bad hmem hne hbad

/-- Witness for C3: the happy path on the concrete four-line input, a
three-line input failing, and an input with an unparsable line failing. -/
theorem readFile_parse_contract_witness :
    readFile "52.5\n13.4\n34\n10\n" = .ok (52.5, 13.4, 34, 10) ∧
    (∃ e, readFile "52.5\n13.4\n34\n" = .error e) ∧
    (∃ e, readFile "52.5\noops\n34\n10\n" = .error e) :=
  ⟨readFile_parse_contract.1,
   readFile_parse_contract.2.1 "52.5\n13.4\n34\n" (by decide),
   readFile_parse_contract.2.2 "52.5\noops\n34\n10\n" "oops"
     (by decide) (by decide) (by decide)⟩

/-- C10: when every non-blank line parses as a decimal float and at least
four values result, readFile succeeds with the first four parsed values in
file order, silently ignoring further lines; a non-blank unparsable line
anywhere in the file — also after the fourth value — makes it return an
error and no values. -/
theorem readFile_first_four :
    (∀ (contents : String) (v0 v1 v2 v3 : ℚ) (rest : List ℚ),
      (∀ l ∈ splitLines contents, l ≠ "" → (parseFloat? l).isSome) →
      (splitLines contents).filterMap parseFloat? =
        v0 :: v1 :: v2 :: v3 :: rest →
      readFile contents = .ok (v0, v1, v2, v3)) ∧
    (∀ contents l : String, l ∈ splitLines contents → l ≠ "" →
      parseFloat? l = none → ∃ e, readFile contents = .error e) := by
  constructor
  · intro contents v0 v1 v2 v3 rest hall heq
    rw [readFile, parseValues_ok_of_all hall, heq]
  · exact fun contents l hmem hne hbad => readFile_error_of_bad hmem hne hbad

/-- Witness for C10: a five-value file returns the first four values and
drops the fifth; a file whose fifth line is unparsable fails even though
its first four lines are fine. -/
theorem readFile_first_four_witness :
    readFile "1\n2\n3\n4\n99\n" = .ok (1, 2, 3, 4) ∧
    (∃ e, readFile "1\n2\n3\n4\nbad\n" = .error e) :=
  ⟨readFile_first_four.1 "1\n2\n3\n4\n99\n" 1 2 3 4 [99]
     (by decide) (by decide),
   readFile_first_four.2 "1\n2\n3\n4\nbad\n" "bad"
     (by decide) (by decide) (by decide)⟩

end GeolocationFile

namespace Geobus

/-- Modelled from the spec: `geobus.GeolocationState` (its source file is
not under src; §3 of the documentation fixes its behavior).  The
per-provider last-emitted snapshot (Lat, Lon, Alt, AccuracyMeters), used
purely for change suppression; `none` before the first successful read. -/
structure GeolocationState where
  snapshot : Option (ℚ × ℚ × ℚ × ℚ) := none
  deriving Repr, DecidableEq

/-- Modelled from the spec: `GeolocationState.HasChanged`, a pure
predicate, true on the first read or when at least one of the four values
differs from the committed snapshot (zero tolerance, plain equality). -/
def GeolocationState.hasChanged (st : GeolocationState)
    (lat lon alt acc : ℚ) : Bool :=
  st.snapshot ≠ some (lat, lon, alt, acc)

/-- Modelled from the spec: `GeolocationState.Update` commits the new
snapshot. -/
def GeolocationState.update (_ : GeolocationState)
    (lat lon alt acc : ℚ) : GeolocationState :=
  ⟨some (lat, lon, alt, acc)⟩

/-- Outcome of one underlying read inside a provider's LookupStream loop:
`p.readFile()` for the file provider, `p.locate(ctx)` for the IP
providers.  A success carries (lat, lon, alt, acc, con); the file
provider's reads ignore `con` (its builder fixes confidence 1.0). -/
inductive ReadOutcome where
  | failure
  | success (lat lon alt acc con : ℚ)
  deriving Repr, DecidableEq

/-- The emissions of a provider's LookupStream loop
(geolocation_file.go:51-82, geoip.go:68-98) over a finite prefix of read
outcomes, with no cancellation: a failed read emits nothing and retries; a
successful read emits `mk lat lon alt acc con` exactly when the state says
the reading changed, committing the new snapshot alongside. -/
def emitChanges (mk : ℚ → ℚ → ℚ → ℚ → ℚ → Result) :
    GeolocationState → List ReadOutcome → List Result
  | _, [] => []
  | st, .failure :: rest => emitChanges mk st rest
  | st, .success lat lon alt acc con :: rest =>
    if st.hasChanged lat lon alt acc then
      mk lat lon alt acc con :: emitChanges mk (st.update lat lon alt acc) rest
    else
      emitChanges mk st rest

/-- Cancellation inputs for a single iteration of a LookupStream loop:
whether ctx.Done is already closed at the top-of-loop check
(geolocation_file.go:52-56), fires while the emission send is pending
(70-74), or fires during whichever wait the iteration reaches — the
`time.Sleep(p.period)` of the failed-read branch (61) or the
`select`-guarded `time.After(p.period)` wait (77-81). -/
structure IterEnv where
  cancelAtTop : Bool
  read : ReadOutcome
  cancelAtSend : Bool
  cancelDuringWait : Bool
  deriving Repr, DecidableEq

/-- Result of a single LookupStream loop iteration: whether the goroutine
returned (closing the output channel), what it emitted, the state carried
to the next iteration, and whether it stayed blocked for the full polling
period after cancellation had already fired. -/
structure StepOut where
  closes : Bool
  emitted : Option Result
  st : GeolocationState
  blockedFullPeriodAfterCancel : Bool
  deriving Repr, DecidableEq

/-- One iteration of the LookupStream loop (geolocation_file.go:51-82 and,
identically structured, geoip.go:68-98).  The failed-read branch is a
plain `time.Sleep(p.period)`: it does not select on ctx.Done, so when
cancellation fires during it the goroutine still blocks for the whole
period (and only notices the cancellation at the next top-of-loop check).
The emission send and the post-iteration wait are both `select`s racing
against ctx.Done and return promptly. -/
def lookupStep (mk : ℚ → ℚ → ℚ → ℚ → ℚ → Result)
    (st : GeolocationState) (env : IterEnv) : StepOut :=
  if env.cancelAtTop then ⟨true, none, st, false⟩
  else
    match env.read with
    | .failure => ⟨false, none, st, env.cancelDuringWait⟩
    | .success lat lon alt acc con =>
      if st.hasChanged lat lon alt acc then
        let st2 := st.update lat lon alt acc
        if env.cancelAtSend then ⟨true, none, st2, false⟩
        else if env.cancelDuringWait then ⟨true, some (mk lat lon alt acc con), st2, false⟩
        else ⟨false, some (mk lat lon alt acc con), st2, false⟩
      else
        if env.cancelDuringWait then ⟨true, none, st, false⟩
        else ⟨false, none, st, false⟩

end Geobus

namespace GeolocationFile

/-- Embeds `GeolocationFileProvider.createResult`
(geolocation_file.go:88-100) with the provider's constructor defaults
(name "GeolocationFile", TTL 15 minutes, confidence fixed 1.0); the
observation instant stands in for time.Now(). -/
def createResult (key : String) (atT : ℤ) (lat lon alt acc : ℚ) :
    Geobus.Result :=
  { key := key, lat := lat, lon := lon, alt := alt, accuracyMeters := acc,
    confidence := 1, source := "GeolocationFile", atTime := atT,
    ttl := 15 * 60 }

end GeolocationFile

namespace GeolocationFile

/-- The emission builder the file provider's loop uses
(geolocation_file.go:68): `createResult` at a fixed key and clock; the
confidence argument of the generic loop is ignored because the file
provider pins confidence 1.0. -/
def fileMk : ℚ → ℚ → ℚ → ℚ → ℚ → Geobus.Result :=
  fun lat lon alt acc _ => createResult "home" 0 lat lon alt acc

end GeolocationFile

/-- C6: change suppression in every provider stream: a successful read
identical to the immediately preceding successful read contributes no
emission (so feeding the identical reading twice in a row yields exactly
one emitted Result), and a reading is emitted exactly when the snapshot
state says so — on the first successful read (empty snapshot) or when at
least one of the four values differs from the last-committed snapshot. -/
theorem stream_change_suppression :
    (∀ (mk : ℚ → ℚ → ℚ → ℚ → ℚ → Geobus.Result)
        (st : Geobus.GeolocationState) (lat lon alt acc con : ℚ)
        (rest : List Geobus.ReadOutcome),
      Geobus.emitChanges mk st
          (.success lat lon alt acc con ::
            .success lat lon alt acc con :: rest) =
        Geobus.emitChanges mk st (.success lat lon alt acc con :: rest)) ∧
    (∀ (mk : ℚ → ℚ → ℚ → ℚ → ℚ → Geobus.Result) (lat lon alt acc con : ℚ),
      Geobus.emitChanges mk ⟨none⟩
          [.success lat lon alt acc con, .success lat lon alt acc con] =
        [mk lat lon alt acc con]) ∧
    (∀ (st : Geobus.GeolocationState) (lat lon alt acc : ℚ),
      st.hasChanged lat lon alt acc = true ↔
        st.snapshot ≠ some (lat, lon, alt, acc)) := by
  refine ⟨?_, ?_, ?_⟩
  · intro mk st lat lon alt acc con rest
    cases h : st.hasChanged lat lon alt acc with
    | false => simp only [Geobus.emitChanges, h, Bool.false_eq_true, if_false]
    | true =>
      have h2 : (st.update lat lon alt acc).hasChanged lat lon alt acc
          = false := by
        simp [Geobus.GeolocationState.update, Geobus.GeolocationState.hasChanged]
      simp only [Geobus.emitChanges, h, if_true, h2, Bool.false_eq_true,
        if_false]
  · intro mk lat lon alt acc con
    simp [Geobus.emitChanges, Geobus.GeolocationState.hasChanged,
      Geobus.GeolocationState.update]
  · intro st lat lon alt acc
    simp [Geobus.GeolocationState.hasChanged]

/-- C4: a LookupStream iteration ends the stream only when cancellation
fired at one of its checkpoints; absent cancellation the loop always
continues, so the sequence never self-terminates; a failed read emits
nothing — no error or sentinel value ever crosses the channel — keeps the
snapshot state, and proceeds to the polling-period wait and retry; and
every emitted value is a genuine Result built from a successful read. -/
theorem stream_never_terminates :
    (∀ (mk : ℚ → ℚ → ℚ → ℚ → ℚ → Geobus.Result)
        (st : Geobus.GeolocationState) (env : Geobus.IterEnv),
      (Geobus.lookupStep mk st env).closes = true →
      env.cancelAtTop = true ∨ env.cancelAtSend = true ∨
        env.cancelDuringWait = true) ∧
    (∀ (mk : ℚ → ℚ → ℚ → ℚ → ℚ → Geobus.Result)
        (st : Geobus.GeolocationState) (env : Geobus.IterEnv),
      env.cancelAtTop = false → env.cancelAtSend = false →
      env.cancelDuringWait = false →
      (Geobus.lookupStep mk st env).closes = false) ∧
    (∀ (mk : ℚ → ℚ → ℚ → ℚ → ℚ → Geobus.Result)
        (st : Geobus.GeolocationState) (env : Geobus.IterEnv),
      env.cancelAtTop = false → env.read = .failure →
      Geobus.lookupStep mk st env = ⟨false, none, st, env.cancelDuringWait⟩) ∧
    (∀ (mk : ℚ → ℚ → ℚ → ℚ → ℚ → Geobus.Result)
        (st : Geobus.GeolocationState) (env : Geobus.IterEnv)
        (r : Geobus.Result),
      (Geobus.lookupStep mk st env).emitted = some r →
      ∃ lat lon alt acc con, env.read = .success lat lon alt acc con ∧
        r = mk lat lon alt acc con) := by
  refine ⟨?_, ?_, ?_, ?_⟩
  · rintro mk st ⟨ct, read, cs, cw⟩ h
    cases ct
    · cases read with
      | failure => simp [Geobus.lookupStep] at h
      | success lat lon alt acc con =>
        cases hch : st.hasChanged lat lon alt acc with
        | false =>
          cases cw
          · simp [Geobus.lookupStep, hch] at h
          · right; right; rfl
        | true =>
          cases cs
          · cases cw
            · simp [Geobus.lookupStep, hch] at h
            · right; right; rfl
          · right; left; rfl
    · left; rfl
  · rintro mk st ⟨ct, read, cs, cw⟩ h1 h2 h3
    cases h1; cases h2; cases h3
    cases read with
    | failure => simp [Geobus.lookupStep]
    | success lat lon alt acc con =>
      cases hch : st.hasChanged lat lon alt acc with
      | false => simp [Geobus.lookupStep, hch]
      | true => simp [Geobus.lookupStep, hch]
  · rintro mk st ⟨ct, read, cs, cw⟩ h1 h2
    cases h1; cases h2
    simp [Geobus.lookupStep]
  · rintro mk st ⟨ct, read, cs, cw⟩ r h
    cases ct
    · cases read with
      | failure => simp [Geobus.lookupStep] at h
      | success lat lon alt acc con =>
        cases hch : st.hasChanged lat lon alt acc with
        | false =>
          cases cw <;> simp [Geobus.lookupStep, hch] at h
        | true =>
          cases cs
          · cases cw <;>
              · simp [Geobus.lookupStep, hch] at h
                exact ⟨lat, lon, alt, acc, con, rfl, h.symm⟩
          · simp [Geobus.lookupStep, hch] at h
    · simp [Geobus.lookupStep] at h

/-- Witness for C4 at concrete inputs: a top-of-loop cancellation closes
the stream and is indeed a cancellation; with no cancellation the stream
stays open; a failed read (with an uncancelled top check) yields no
emission, no close, an unchanged snapshot; and the emission of a
successful read is the built Result. -/
theorem stream_never_terminates_witness :
    (Geobus.lookupStep GeolocationFile.fileMk ⟨none⟩
        ⟨true, .failure, false, false⟩).closes = true ∧
    ((⟨true, .failure, false, false⟩ : Geobus.IterEnv).cancelAtTop = true ∨
      (⟨true, .failure, false, false⟩ : Geobus.IterEnv).cancelAtSend = true ∨
      (⟨true, .failure, false, false⟩ : Geobus.IterEnv).cancelDuringWait = true) ∧
    (Geobus.lookupStep GeolocationFile.fileMk ⟨none⟩
        ⟨false, .failure, false, false⟩).closes = false ∧
    Geobus.lookupStep GeolocationFile.fileMk ⟨none⟩
        ⟨false, .failure, false, true⟩ = ⟨false, none, ⟨none⟩, true⟩ ∧
    (∃ lat lon alt acc con,
      (⟨false, .success 1 2 3 4 1, false, false⟩ : Geobus.IterEnv).read =
        .success lat lon alt acc con ∧
      GeolocationFile.fileMk 1 2 3 4 1 = GeolocationFile.fileMk lat lon alt acc con) := by
  have h1 : (Geobus.lookupStep GeolocationFile.fileMk ⟨none⟩
      ⟨true, .failure, false, false⟩).closes = true := by decide
  refine ⟨h1, stream_never_terminates.1 GeolocationFile.fileMk ⟨none⟩ _ h1,
    stream_never_terminates.2.1 GeolocationFile.fileMk ⟨none⟩ _ rfl rfl rfl,
    stream_never_terminates.2.2.1 GeolocationFile.fileMk ⟨none⟩ _ rfl rfl,
    stream_never_terminates.2.2.2 GeolocationFile.fileMk ⟨none⟩ _
      (GeolocationFile.fileMk 1 2 3 4 1) (by decide)⟩

/-- C5 (refuted by the code): the failed-read wait is a plain
`time.Sleep(p.period)` (geolocation_file.go:61, geoip.go:77) that does not
select on ctx.Done, so when cancellation fires during it the stream task
stays blocked for the whole polling period; by contrast the success-path
emission and wait are select-guarded and react to the same cancellation
promptly. -/
theorem failedReadSleep_blocks_after_cancel :
    (Geobus.lookupStep GeolocationFile.fileMk ⟨none⟩
        ⟨false, .failure, false, true⟩).blockedFullPeriodAfterCancel = true ∧
    (Geobus.lookupStep GeolocationFile.fileMk ⟨none⟩
        ⟨false, .success 1 2 3 4 1, false, true⟩).blockedFullPeriodAfterCancel
        = false ∧
    (Geobus.lookupStep GeolocationFile.fileMk ⟨none⟩
        ⟨false, .success 1 2 3 4 1, false, true⟩).closes = true := by
  decide

namespace GeoIP

/-- Accuracy tiers in meters (geoip.go:17-23; the constant names, typo
included, follow the source). -/
def AccuracyCountry : ℚ := 300000

/-- Region-level accuracy (geoip.go:19). -/
def AccuracyRegion : ℚ := 100000

/-- City-level accuracy (geoip.go:20). -/
def AccuracyCity : ℚ := 15000

/-- Postal-code-level accuracy (geoip.go:21). -/
def AccuracyZip : ℚ := 3000

/-- Fallback accuracy when no field is populated (geoip.go:22). -/
def AccuarcyUnknown : ℚ := 1000000

/-- Confidence assigned with the unknown tier (geoip.go:128). -/
def conUnknown : ℚ := mkRat 1 10

/-- Confidence assigned with the zip tier (geoip.go:131). -/
def conZip : ℚ := mkRat 85 100

/-- Confidence assigned with the city tier (geoip.go:135). -/
def conCity : ℚ := mkRat 7 10

/-- Confidence assigned with the region tier (geoip.go:139). -/
def conRegion : ℚ := mkRat 5 10

/-- Confidence assigned with the country tier (geoip.go:143). -/
def conCountry : ℚ := mkRat 3 10

/-- The response fields both IP-geolocation providers consume
(geoip.go:33-45 and the identical struct in the ICHNAEA provider): the
coordinates plus the four code/name fields whose presence drives the
specificity ladder. -/
structure APIResult where
  countryCode : String := ""
  regionCode : String := ""
  city : String := ""
  zipCode : String := ""
  latitude : ℚ := 0
  longitude : ℚ := 0
  deriving Repr, DecidableEq

/-- Embeds `GeolocationGeoIPProvider.locate` (geoip.go:118-147) on a
successfully fetched response, returning (lat, lon, alt, acc, con).
Starting from the unknown tier, each `if` in source order — zip, city,
region, country — overwrites accuracy and confidence when its field is
populated; the `if`s are not chained with `else`, so the LAST populated
check in that order (the coarsest tier) wins. -/
def locate (r : APIResult) : ℚ × ℚ × ℚ × ℚ × ℚ :=
  let ac0 : ℚ × ℚ := (AccuarcyUnknown, conUnknown)
  let ac1 := if r.zipCode ≠ "" then (AccuracyZip, conZip) else ac0
  let ac2 := if r.city ≠ "" then (AccuracyCity, conCity) else ac1
  let ac3 := if r.regionCode ≠ "" then (AccuracyRegion, conRegion) else ac2
  let ac4 := if r.countryCode ≠ "" then (AccuracyCountry, conCountry) else ac3
  (r.latitude, r.longitude, 0, ac4.1, ac4.2)

/-- Embeds `GeolocationICHNAEAProvider.locate` (lines 243-253 of the
ICHNAEA provider source): the named return values `acc` and `con` are
never assigned before `return result.Latitude, result.Longitude, 0, acc,
con, nil`, so a successful fetch always reports accuracy 0 and confidence
0, whatever the response populated. -/
def locateICHNAEA (r : APIResult) : ℚ × ℚ × ℚ × ℚ × ℚ :=
  (r.latitude, r.longitude, 0, 0, 0)

end GeoIP

namespace GeoIP

/-- A fully populated response: all four ladder fields present. -/
def berlinResponse : APIResult :=
  { countryCode := "DE", regionCode := "BE", city := "Berlin",
    zipCode := "10115", latitude := mkRat 525 10,
    longitude := mkRat 134 10 }

/-- A response populating only the postal code. -/
def zipOnlyResponse : APIResult :=
  { zipCode := "10115", latitude := 1, longitude := 2 }

end GeoIP

/-- C2 (refuted by the code): on a response that populates all four fields
— zip "10115", city "Berlin", region "BE", country "DE" — the geoip
provider reports the COUNTRY tier (accuracy 300000, confidence 0.3), not
the zip tier (accuracy 3000, confidence 0.85) the most-precise-wins ladder
demands, because its un-chained `if`s let the coarsest populated field
overwrite the tighter ones; and the second implementation (ICHNAEA)
ignores the populated fields entirely, reporting accuracy 0 and
confidence 0.  A zip-only response does land on the zip tier, showing the
ladder is inverted rather than absent. -/
theorem ipLadder_coarsest_tier_wins :
    GeoIP.locate GeoIP.berlinResponse =
      (mkRat 525 10, mkRat 134 10, 0, GeoIP.AccuracyCountry, GeoIP.conCountry) ∧
    GeoIP.AccuracyCountry ≠ GeoIP.AccuracyZip ∧
    GeoIP.conCountry ≠ GeoIP.conZip ∧
    GeoIP.locate GeoIP.zipOnlyResponse =
      (1, 2, 0, GeoIP.AccuracyZip, GeoIP.conZip) ∧
    GeoIP.locateICHNAEA GeoIP.berlinResponse =
      (mkRat 525 10, mkRat 134 10, 0, 0, 0) := by
  refine ⟨by decide, by decide, by decide, by decide, by decide⟩

namespace SleepMonitor

/-- The debounce window in seconds (sleep.go:17). -/
def debounceWindow : ℤ := 2

/-- Embeds `Service.handleResumeEvent` (sleep.go:126-138): compares the
current Unix second against the stored last-action timestamp; under the
debounce window it does nothing, otherwise it stores the current second
and fires the (asynchronous) weather refresh.  Returns (refresh fired, new
stored timestamp). -/
def handleResumeEvent (lastResumeUnix nowUnix : ℤ) : Bool × ℤ :=
  if nowUnix - lastResumeUnix < debounceWindow then (false, lastResumeUnix)
  else (true, nowUnix)

/-- The Unix-second clock reading of a real instant given in milliseconds,
embedding time.Now().Unix(). -/
def unixSeconds (ms : ℕ) : ℤ := ((ms / 1000 : ℕ) : ℤ)

/-- A dbus message body element: a boolean, or a value of any other
type (the tag only distinguishes values). -/
inductive BusValue where
  | boolean (b : Bool)
  | other (tag : ℕ)
  deriving Repr, DecidableEq

/-- Embeds `Service.processSleepSignal` (sleep.go:115-124): a body of any
length other than one is ignored; a single element that does not
type-assert to bool, or equals true (entering sleep), is ignored; only a
single boolean false (resuming) reaches handleResumeEvent.  Returns
(refresh fired, new stored timestamp). -/
def processSleepSignal (body : List BusValue) (lastResumeUnix nowUnix : ℤ) :
    Bool × ℤ :=
  if body.length ≠ 1 then (false, lastResumeUnix)
  else
    match body with
    | [.boolean sleeping] =>
      if sleeping then (false, lastResumeUnix)
      else handleResumeEvent lastResumeUnix nowUnix
    | _ => (false, lastResumeUnix)

end SleepMonitor

/-- The debounce guard of handleResumeEvent considered in isolation: it
fires exactly when the observed Unix second is at least debounceWindow = 2
beyond the stored last-action timestamp, so that two invocations whose
observed clocks lie 500 ms apart (the first acted on) fire once, and two
whose clocks lie 3 s apart fire twice.  (This is the behavior the
debounce was written for; the signal loop never actually hands the guard
such close clocks — see the theorem on runSignalLoop below.) -/
theorem resume_debounce :
    (∀ last now : ℤ,
      (SleepMonitor.handleResumeEvent last now).1 = true ↔
        SleepMonitor.debounceWindow ≤ now - last) ∧
    (∀ t : ℕ,
      (SleepMonitor.handleResumeEvent (SleepMonitor.unixSeconds t)
        (SleepMonitor.unixSeconds (t + 500))).1 = false) ∧
    (∀ t : ℕ,
      (SleepMonitor.handleResumeEvent (SleepMonitor.unixSeconds t)
        (SleepMonitor.unixSeconds (t + 3000))).1 = true) := by
  refine ⟨?_, ?_, ?_⟩
  · intro last now
    rw [SleepMonitor.handleResumeEvent]
    by_cases h : now - last < SleepMonitor.debounceWindow
    · rw [if_pos h]
      simp only [Bool.false_eq_true, false_iff, not_le]
      exact h
    · rw [if_neg h]
      simp only [true_iff]
      exact le_of_not_lt h
  · intro t
    have hle : (t + 500) / 1000 ≤ t / 1000 + 1 := by
      have h1 : (t + 500) / 1000 ≤ (t + 1000) / 1000 :=
        Nat.div_le_div_right (by omega)
      have h2 : (t + 1000) / 1000 = t / 1000 + 1 := Nat.add_div_right t
        (by omega)
      omega
    have hge : t / 1000 ≤ (t + 500) / 1000 :=
      Nat.div_le_div_right (by omega)
    rw [SleepMonitor.handleResumeEvent, if_pos]
    rw [SleepMonitor.unixSeconds, SleepMonitor.unixSeconds,
      SleepMonitor.debounceWindow]
    omega
  · intro t
    have h3 : (t + 3000) / 1000 = t / 1000 + 3 := by
      have := Nat.add_mul_div_right t 3 (show 0 < 1000 by omega)
      omega
    rw [SleepMonitor.handleResumeEvent, if_neg]
    rw [SleepMonitor.unixSeconds, SleepMonitor.unixSeconds,
      SleepMonitor.debounceWindow]
    omega

/-- C8: only a signal whose payload is the single boolean false enters the
resume-handling path; a true payload, a payload of any other arity, or a
non-boolean payload is ignored and leaves the stored timestamp (the
monitor's only mutable state) unchanged. -/
theorem sleepSignal_guard :
    (∀ (body : List SleepMonitor.BusValue) (last now : ℤ),
      body ≠ [.boolean false] →
      SleepMonitor.processSleepSignal body last now = (false, last)) ∧
    (∀ last now : ℤ,
      SleepMonitor.processSleepSignal [.boolean false] last now =
        SleepMonitor.handleResumeEvent last now) := by
  constructor
  · intro body last now hne
    match body with
    | [] => rfl
    | [.boolean true] => rfl
    | [.boolean false] => exact absurd rfl hne
    | [.other t] => rfl
    | a :: b :: rest => simp [SleepMonitor.processSleepSignal]
  · intro last now
    rfl

/-- Witness for C8: a sleep-entry signal, a two-element signal, and a
non-boolean signal all leave the state alone; the single-false signal
reaches the debounce logic. -/
theorem sleepSignal_guard_witness :
    SleepMonitor.processSleepSignal [.boolean true] 0 100 = (false, 0) ∧
    SleepMonitor.processSleepSignal [.boolean false, .boolean false] 0 100 =
      (false, 0) ∧
    SleepMonitor.processSleepSignal [.other 7] 0 100 = (false, 0) ∧
    SleepMonitor.processSleepSignal [.boolean false] 0 100 =
      SleepMonitor.handleResumeEvent 0 100 :=
  ⟨sleepSignal_guard.1 [.boolean true] 0 100 (by decide),
   sleepSignal_guard.1 [.boolean false, .boolean false] 0 100 (by decide),
   sleepSignal_guard.1 [.other 7] 0 100 (by decide),
   sleepSignal_guard.2 0 100⟩

namespace SleepMonitor

/-- One connection attempt inside `Service.connectToSystemBus`
(sleep.go:57-79): the dial fails and the retry delay elapses first
(failRetry), the dial fails and cancellation fires first (failCancel), or
the dial succeeds. -/
inductive ConnectAttempt where
  | failRetry
  | failCancel
  | success
  deriving Repr, DecidableEq

/-- Embeds `Service.connectToSystemBus` (sleep.go:57-79) over a script of
attempt outcomes: failed dials open nothing and loop; a failure followed
by cancellation returns no connection; a successful dial opens a fresh
connection handle (numbered by `nextId`) and returns it.  An exhausted
script is read as cancellation during the retry wait.  Returns the
connection (if any) and the next fresh id. -/
def connectToSystemBus (nextId : ℕ) : List ConnectAttempt → Option ℕ × ℕ
  | [] => (none, nextId)
  | .failRetry :: rest => connectToSystemBus nextId rest
  | .failCancel :: _ => (none, nextId)
  | .success :: _ => (some nextId, nextId + 1)

/-- Environment of one iteration of `Service.monitorSleepResume`
(sleep.go:22-55): the dial attempts this pass, whether the
PrepareForSleep subscription succeeds, and whether the pass ends with
cancellation (covering both a signal loop ended by ctx.Done and ctx.Done
observed at the post-loop select). -/
structure MonIterEnv where
  connect : List ConnectAttempt
  subscribeOk : Bool
  cancelAfterLoop : Bool
  deriving Repr, DecidableEq

/-- Embeds `Service.monitorSleepResume` (sleep.go:22-55) over a script of
iteration environments, tracking every opened and every closed connection
handle.  Per iteration: no connection (cancelled dial) returns at once;
a subscription failure closes the connection (sleep.go:87-89) and retries;
otherwise the signal loop runs, the connection is closed on its exit
(sleep.go:42-45), and the monitor either returns (cancellation) or
reconnects.  Returns `some (opened, closed)` when the monitor returned,
`none` when the script ran out mid-loop.  (The watchdog goroutine of
sleep.go:70-75 can only add further closes of already-closed handles, so
it is omitted.) -/
def monitorRun (nextId : ℕ) (opened closed : List ℕ) :
    List MonIterEnv → Option (List ℕ × List ℕ)
  | [] => none
  | env :: rest =>
    match connectToSystemBus nextId env.connect with
    | (none, _) => some (opened, closed)
    | (some c, n2) =>
      if env.subscribeOk then
        if env.cancelAfterLoop then some (opened ++ [c], closed ++ [c])
        else monitorRun n2 (opened ++ [c]) (closed ++ [c]) rest
      else monitorRun n2 (opened ++ [c]) (closed ++ [c]) rest

/-- connectToSystemBus opens a handle exactly when it returns one. -/
theorem connectToSystemBus_shape (nextId : ℕ) (script : List ConnectAttempt) :
    connectToSystemBus nextId script = (none, nextId) ∨
    connectToSystemBus nextId script = (some nextId, nextId + 1) := by
  induction script with
  | nil => exact Or.inl rfl
  | cons a rest ih =>
    cases a with
    | failRetry => exact ih
    | failCancel => exact Or.inl rfl
    | success => exact Or.inr rfl

/-- Accumulator invariant: a monitor run that returns closed every handle
it had opened. -/
theorem monitorRun_closes_aux (script : List MonIterEnv) :
    ∀ (nextId : ℕ) (opened closed op cl : List ℕ),
    (∀ i ∈ opened, i ∈ closed) →
    monitorRun nextId opened closed script = some (op, cl) →
    ∀ i ∈ op, i ∈ cl := by
  induction script with
  | nil => intro n opened closed op cl hinv h; cases h
  | cons env rest ih =>
    intro n opened closed op cl hinv h
    rw [monitorRun] at h
    rcases connectToSystemBus_shape n env.connect with hc | hc
    · rw [hc] at h
      cases h
      exact hinv
    · rw [hc] at h
      have hinv2 : ∀ i ∈ opened ++ [n], i ∈ closed ++ [n] := by
        intro i hi
        rw [List.mem_append] at hi ⊢
        rcases hi with hi | hi
        · exact Or.inl (hinv i hi)
        · exact Or.inr hi
      cases hsub : env.subscribeOk with
      | false =>
        rw [hsub] at h
        simp only [Bool.false_eq_true, if_false] at h
        exact ih n.succ _ _ op cl hinv2 h
      | true =>
        rw [hsub] at h
        simp only [if_true] at h
        cases hcan : env.cancelAfterLoop with
        | true =>
          rw [hcan] at h
          simp only [if_true] at h
          cases h
          exact hinv2
        | false =>
          rw [hcan] at h
          simp only [Bool.false_eq_true, if_false] at h
          exact ih n.succ _ _ op cl hinv2 h

end SleepMonitor

/-- C9: on every exit path of the sleep/resume monitor — cancellation
while dialing, subscription failure, normal signal-loop end with
reconnect, and cancellation after the signal loop — every system-bus
connection handle the monitor opened has been closed when it returns:
no handle is ever leaked. -/
theorem monitor_never_leaks :
    ∀ (script : List SleepMonitor.MonIterEnv) (op cl : List ℕ),
    SleepMonitor.monitorRun 0 [] [] script = some (op, cl) →
    ∀ i ∈ op, i ∈ cl := by
  intro script op cl h
  exact SleepMonitor.monitorRun_closes_aux script 0 [] [] op cl
    (by intro i hi; cases hi) h

/-- Witness for C9: a run that exercises a failed dial with retry, a
subscription failure, a normal loop end with reconnect, and a final
cancellation; both handles it opened are closed. -/
theorem monitor_never_leaks_witness :
    SleepMonitor.monitorRun 0 [] []
      [⟨[.failRetry, .success], false, false⟩,
       ⟨[.success], true, false⟩,
       ⟨[.failCancel], true, true⟩] = some ([0, 1], [0, 1]) ∧
    (∀ i ∈ [0, 1], i ∈ [0, 1]) := by
  have h : SleepMonitor.monitorRun 0 [] []
      [⟨[.failRetry, .success], false, false⟩,
       ⟨[.success], true, false⟩,
       ⟨[.failCancel], true, true⟩] = some ([0, 1], [0, 1]) := by decide
  exact ⟨h, monitor_never_leaks _ [0, 1] [0, 1] h⟩

namespace FusionHub

open Geobus

/-- Modelled from the spec: a Result is expired once its expiry instant
At + TTL has passed (§3 "Current estimate" and §4.2 step 4; the hub's
source file is not under src). -/
def expired (r : Result) (now : ℤ) : Bool := r.atTime + r.ttl ≤ now

/-- Modelled from the spec: the fusion hub's selection rule (§4.2; the
hub's source file is not under src).  Applied between the incoming Result
and the current estimate: an incoming Result from the same Source always
replaces the estimate (rule d); an expired estimate loses unconditionally
(rule e); otherwise higher Confidence wins (rule a), equal Confidence
falls to smaller AccuracyMeters (rule b), and a full tie falls to the more
recent observation (rule c). -/
def beats (incoming current : Result) (now : ℤ) : Bool :=
  if incoming.source = current.source then true
  else if expired current now then true
  else if current.confidence < incoming.confidence then true
  else if incoming.confidence < current.confidence then false
  else if incoming.accuracyMeters < current.accuracyMeters then true
  else if current.accuracyMeters < incoming.accuracyMeters then false
  else current.atTime < incoming.atTime

/-- Modelled from the spec: the hub's merge step on one received Result
(§4.2 step 3): with no current estimate the Result is adopted; otherwise
it replaces the estimate exactly when the selection rule says it wins. -/
def applyResult (est : Option Result) (r : Result) (now : ℤ) : Option Result :=
  match est with
  | none => some r
  | some c => if beats r c now then some r else some c

end FusionHub

/-- C1: for two non-expired Results from different providers with distinct
Confidence values, the higher-confidence one is the hub's estimate
whichever arrival order occurs. -/
theorem higher_confidence_wins :
    ∀ (a b : Geobus.Result) (now : ℤ),
    a.source ≠ b.source →
    FusionHub.expired a now = false →
    FusionHub.expired b now = false →
    b.confidence < a.confidence →
    FusionHub.applyResult (FusionHub.applyResult none a now) b now = some a ∧
    FusionHub.applyResult (FusionHub.applyResult none b now) a now = some a := by
  intro a b now hsrc hea heb hconf
  constructor
  · show FusionHub.applyResult (some a) b now = some a
    rw [FusionHub.applyResult]
    have hb : FusionHub.beats b a now = false := by
      rw [FusionHub.beats]
      rw [if_neg (fun h => hsrc h.symm)]
      rw [hea]
      simp only [Bool.false_eq_true, if_false]
      rw [if_neg (not_lt.mpr (le_of_lt hconf)), if_pos hconf]
    rw [hb]
    simp
  · show FusionHub.applyResult (some b) a now = some a
    rw [FusionHub.applyResult]
    have ha : FusionHub.beats a b now = true := by
      rw [FusionHub.beats]
      rw [if_neg hsrc]
      rw [heb]
      simp only [Bool.false_eq_true, if_false]
      rw [if_pos hconf]
    rw [ha]
    simp

namespace GeoIP

/-- Embeds `GeolocationGeoIPProvider.createResult` (geoip.go:104-116) with
the provider's constructor defaults (name "geoip", TTL 60 minutes); the
observation instant stands in for time.Now(). -/
def createResult (key : String) (atT : ℤ) (lat lon alt acc con : ℚ) :
    Geobus.Result :=
  { key := key, lat := lat, lon := lon, alt := alt, accuracyMeters := acc,
    confidence := con, source := "geoip", atTime := atT, ttl := 60 * 60 }

end GeoIP

/-- Witness for C1: a file-provider Result (confidence 1) and a geoip
Result (confidence 0.3), both fresh at now = 10; in either arrival order
the file-provider Result is the estimate. -/
theorem higher_confidence_wins_witness :
    (GeolocationFile.createResult "home" 0 1 2 3 4).source ≠
      (GeoIP.createResult "home" 0 5 6 0 300000 (mkRat 3 10)).source ∧
    FusionHub.expired (GeolocationFile.createResult "home" 0 1 2 3 4) 10 =
      false ∧
    FusionHub.expired (GeoIP.createResult "home" 0 5 6 0 300000 (mkRat 3 10))
      10 = false ∧
    (GeoIP.createResult "home" 0 5 6 0 300000 (mkRat 3 10)).confidence <
      (GeolocationFile.createResult "home" 0 1 2 3 4).confidence ∧
    (FusionHub.applyResult
        (FusionHub.applyResult none
          (GeolocationFile.createResult "home" 0 1 2 3 4) 10)
        (GeoIP.createResult "home" 0 5 6 0 300000 (mkRat 3 10)) 10 =
      some (GeolocationFile.createResult "home" 0 1 2 3 4) ∧
     FusionHub.applyResult
        (FusionHub.applyResult none
          (GeoIP.createResult "home" 0 5 6 0 300000 (mkRat 3 10)) 10)
        (GeolocationFile.createResult "home" 0 1 2 3 4) 10 =
      some (GeolocationFile.createResult "home" 0 1 2 3 4)) := by
  refine ⟨by decide, by decide, by decide, by decide,
    higher_confidence_wins _ _ 10 (by decide) (by decide) (by decide)
      (by decide)⟩

namespace SleepMonitor

/-- The network wakeup grace sleep in milliseconds (sleep.go:18),
executed synchronously inside handleResumeEvent before the refresh
goroutine is spawned. -/
def networkWakeupDelayMs : ℕ := 5000

/-- Embeds the sequential signal loop `Service.handleSleepSignals`
(sleep.go:100-113) processing a queue of signals, each given with its
arrival instant in milliseconds (non-decreasing).  A signal is handled at
the later of its arrival and the moment the loop becomes free; the loop
calls processSleepSignal with time.Now() read at that moment, and — when
the resume is acted on — stays blocked in the synchronous
`time.Sleep(networkWakeupDelay)` of handleResumeEvent (sleep.go:136)
before it can dequeue the next signal.  Returns the number of refresh
actions fired. -/
def runSignalLoop (lastResumeUnix : ℤ) (freeAt : ℕ) :
    List (List BusValue × ℕ) → ℕ
  | [] => 0
  | (body, arrival) :: rest =>
    let t := max freeAt arrival
    let r := processSleepSignal body lastResumeUnix (unixSeconds t)
    (if r.1 then 1 else 0) +
      runSignalLoop r.2 (t + if r.1 then networkWakeupDelayMs else 0) rest

end SleepMonitor

/-- C7 (refuted by the code): two resume signals 500 ms apart both
trigger a refresh action, not one.  After a resume is acted on, the
signal loop is blocked for networkWakeupDelay = 5 s inside
handleResumeEvent before the next queued signal can be processed, so that
signal sees a stored-timestamp difference of 5 seconds ≥ debounceWindow
= 2 and is never suppressed; the debounce guard cannot fire after an
acted-on resume.  (Two signals 3 s apart also trigger two, as the claim
says, though through the same delayed processing.) -/
theorem debounce_defeated_by_wakeup_sleep :
    SleepMonitor.runSignalLoop 0 0
      [([.boolean false], 100000), ([.boolean false], 100500)] = 2 ∧
    SleepMonitor.runSignalLoop 0 0
      [([.boolean false], 100000), ([.boolean false], 103000)] = 2 ∧
    SleepMonitor.networkWakeupDelayMs = 5000 := by
  decide
